import Mathlib

/-!
Verification of the Olakai SDK (TypeScript) against its specification.

Shallow embedding of the claim-relevant parts of the repository:
 - `src/monitor.ts` (the generic call-interception wrapper `monitor`,
   `shouldAllowCall`, `resolveIdentifiers`, `makeMonitoringCall`, `reportError`);
 - `src/index.ts` (the `OlakaiSDK` class: `checkControlAPI`, `sendMonitoring`,
   `wrap`, `event`, `generateText`, `streamText`);
 - the provider adapters `src/providers/openai.ts`, `src/providers/anthropic.ts`,
   `src/providers/google.ts` (response-metadata extraction and the streaming
   accumulator state machines of `wrapStream` / `wrapStreamResponse`).

Network delivery (`sendToAPI` in `src/client.ts`) is opaque to all verified
code paths: its outcome (a parsed control response, or a thrown failure such as
a network error or an open circuit breaker) is threaded in as an explicit
`DeliveryOutcome` value, exactly as the wrapper observes it.
-/

namespace Olakai

/-- A JavaScript thrown value: either an `Error` object (message and optional
stack) or any other thrown value (strings, numbers, ...), which TypeScript
permits (`catch (error)` binds an `unknown`). -/
inductive Thrown where
  | err (message : String) (stack : Option String)
  | nonError (v : String)
  deriving DecidableEq, Repr

/-- `details` field of a control API response (src/types.ts `ControlAPIResponse`). -/
structure ControlDetails where
  detectedSensitivity : List String
  isAllowedPersona : Bool
  deriving DecidableEq, Repr

/-- src/types.ts `ControlAPIResponse`. -/
structure ControlAPIResponse where
  allowed : Bool
  details : ControlDetails
  deriving DecidableEq, Repr

/-- Outcome of one `sendToAPI(payload, "control")` delivery attempt, as the
caller observes it: either the awaited call returned a parsed response, or it
threw (network error, HTTP failure after retries, circuit breaker open, ...).
The delivery client itself (src/client.ts) is outside the verified surface;
its outcome is an input. -/
inductive DeliveryOutcome where
  | ok (resp : ControlAPIResponse)
  | failure (e : Thrown)
  deriving DecidableEq, Repr

/-- src/types.ts `ControlPayload` (fields used by `shouldAllowCall`). -/
structure ControlPayload where
  prompt : String
  chatId : String
  email : String
  task : Option String
  subTask : Option String
  tokens : Nat
  overrideControlCriteria : Option (List String)
  deriving DecidableEq, Repr

/-- src/types.ts `MonitorPayload`: optional fields are `Option`, mirroring
which keys each construction site actually sets. -/
structure MonitorPayload where
  prompt : String
  response : String
  chatId : String
  email : String
  taskExecutionId : Option String := none
  task : Option String := none
  subTask : Option String := none
  tokens : Option Nat := none
  requestTime : Option Nat := none
  errorMessage : Option String := none
  blocked : Option Bool := none
  sensitivity : Option (List String) := none
  deriving DecidableEq, Repr

/-- An identifier option in `MonitorOptions`: `string | ((args) => string)`
or absent. A resolver function may itself throw. -/
inductive IdOption (α : Type) where
  | undef
  | str (s : String)
  | fn (f : α → Except Thrown String)

/-- src/types.ts `MonitorOptions` (fields read by src/monitor.ts). -/
structure MonitorOptions (α : Type) where
  onMonitoredFunctionError : Option Bool := none
  chatId : IdOption α := .undef
  email : IdOption α := .undef
  task : Option String := none
  subTask : Option String := none
  taskExecutionId : Option String := none
  sanitize : Option Bool := none
  askOverride : Option (List String) := none

/-- src/monitor.ts `resolveIdentifiers`: defaults `"123"` /
`"anonymous@olakai.ai"`; a resolver function's result is taken on success and
the default kept when it throws (the error is caught and logged); a static
value goes through `options.chatId || "123"`, so the empty string (the only
falsy string in JavaScript) also falls back to the default. -/
def resolveIdentifiers {α : Type} (options : MonitorOptions α) (args : α) :
    String × String :=
  let chatId :=
    match options.chatId with
    | .fn f =>
        match f args with
        | .ok s => s
        | .error _ => "123"
    | .str s => if s = "" then "123" else s
    | .undef => "123"
  let email :=
    match options.email with
    | .fn f =>
        match f args with
        | .ok s => s
        | .error _ => "anonymous@olakai.ai"
    | .str s => if s = "" then "anonymous@olakai.ai" else s
    | .undef => "anonymous@olakai.ai"
  (chatId, email)

/-- src/monitor.ts `shouldAllowCall`: builds a `ControlPayload`, sends it to the
control endpoint, and — per the source comment "For now, assume allowed if no
error thrown" — returns `allowed: true` whenever delivery succeeded,
*ignoring the body of the control response*; if delivery threw, it logs and
returns `allowed: false` (fail closed). Returns the response together with the
payload it sent. `encode` stands for `toJsonValue` (src/utils.ts, outside the
verified surface). -/
def shouldAllowCall {α : Type} (options : MonitorOptions α) (args : α)
    (encode : α → String) (delivery : DeliveryOutcome) :
    ControlAPIResponse × ControlPayload :=
  let ids := resolveIdentifiers options args
  let payload : ControlPayload :=
    { prompt := encode args
      chatId := ids.1
      email := ids.2
      task := options.task
      subTask := options.subTask
      tokens := 0
      overrideControlCriteria := options.askOverride }
  match delivery with
  | .ok _ =>
      ({ allowed := true
         details := { detectedSensitivity := [], isAllowedPersona := true } },
       payload)
  | .failure _ =>
      ({ allowed := false
         details := { detectedSensitivity := [], isAllowedPersona := false } },
       payload)

/-- Modelled from the spec: `createErrorInfo` lives in src/utils.ts, which is
not under src/; the spec (§4.2) says the wrapper synchronously captures the
error message and stack. `reportError` concatenates
`errorInfo.errorMessage + "\n" + errorInfo.stackTrace` when a stack exists. -/
def createErrorInfoMessage : Thrown → String
  | .err m (some st) => m ++ "\n" ++ st
  | .err m none => m
  | .nonError v => v

/-- The environment one invocation of the monitor wrapper runs in: whether
`getConfig()` succeeds, the outcome of the control delivery, whether monitoring
deliveries succeed, the wrapped callable itself, serializers standing for
`toJsonValue`, and the elapsed wall time `Date.now() - start`. -/
structure MonitorEnv (α ρ : Type) where
  configOk : Bool
  controlDelivery : DeliveryOutcome
  monitoringDeliveryOk : Bool
  fn : α → Except Thrown ρ
  encodeArgs : α → String
  encodeResult : ρ → String
  elapsedMs : Nat

/-- How the promise returned by the monitored async function settles. -/
inductive MonitorOutcome (ρ : Type) where
  | success (r : ρ)
  | blocked (details : ControlDetails)
  | failed (e : Thrown)
  deriving DecidableEq, Repr

/-- Observable effects of one invocation of the monitored function: how its
promise settles, the monitoring payloads dispatched to `sendToAPI` (in dispatch
order), and whether the wrapped callable was invoked. -/
structure MonitorResult (ρ : Type) where
  outcome : MonitorOutcome ρ
  dispatched : List MonitorPayload
  fnExecuted : Bool
  deriving DecidableEq, Repr

/-- src/client.ts `sendToAPI(payload, "monitoring")` as the monitor observes
it: succeeds or throws, according to the environment. -/
def sendToAPIMonitoring (deliveryOk : Bool) : Except Thrown Unit :=
  if deliveryOk then .ok () else .error (.err "API call failed" none)

/-- src/monitor.ts `makeMonitoringCall`: builds the success payload and sends
it, catching (and only logging) any delivery error — the `try/catch` around
`await sendToAPI(payload, "monitoring")`. Returns the payload it dispatched;
never throws. -/
def makeMonitoringCall {α ρ : Type} (env : MonitorEnv α ρ) (result : ρ)
    (args : α) (options : MonitorOptions α) (detectedSensitivity : List String) :
    MonitorPayload :=
  let ids := resolveIdentifiers options args
  let payload : MonitorPayload :=
    { prompt := env.encodeArgs args
      response := env.encodeResult result
      chatId := ids.1
      email := ids.2
      taskExecutionId := options.taskExecutionId
      tokens := some 0
      requestTime := some env.elapsedMs
      task := match options.task with
        | some t => if t = "" then none else some t
        | none => none
      subTask := match options.subTask with
        | some t => if t = "" then none else some t
        | none => none
      blocked := some false
      sensitivity := some detectedSensitivity }
  match sendToAPIMonitoring env.monitoringDeliveryOk with
  | .ok _ => payload
  | .error _ => payload

/-- src/monitor.ts `reportError`: when `options.onMonitoredFunctionError ?? true`,
builds the error payload and sends it, catching any delivery error; otherwise
dispatches nothing. Returns the dispatched payloads; never throws. -/
def reportError {α : Type} (functionError : Thrown) (args : α)
    (options : MonitorOptions α)
    (detectedSensitivity : List String) : List MonitorPayload :=
  if options.onMonitoredFunctionError.getD true then
    let ids := resolveIdentifiers options args
    [{ prompt := ""
       response := ""
       errorMessage := some (createErrorInfoMessage functionError)
       chatId := ids.1
       email := ids.2
       taskExecutionId := options.taskExecutionId
       sensitivity := some detectedSensitivity }]
  else []

/-- src/monitor.ts `monitor(options)(fn)(...args)` — one invocation of the
wrapped async function, following the source's control flow:
1. `getConfig()`; if it throws, execute `fn` unmonitored and return/re-raise.
2. `shouldAllowCall`; on `allowed=false`, dispatch a `blocked=true` monitoring
   payload (fire-and-forget) and throw `OlakaiBlockedError` with the details.
3. Execute `fn`. On throw: `reportError`, then re-throw the original error.
   On success: `makeMonitoringCall`, then return the result. -/
def monitorRun {α ρ : Type} (env : MonitorEnv α ρ) (options : MonitorOptions α)
    (args : α) : MonitorResult ρ :=
  if env.configOk = false then
    match env.fn args with
    | .ok r => ⟨.success r, [], true⟩
    | .error e => ⟨.failed e, [], true⟩
  else
    let shouldAllow := (shouldAllowCall options args env.encodeArgs
      env.controlDelivery).1
    if shouldAllow.allowed = false then
      let ids := resolveIdentifiers options args
      let payload : MonitorPayload :=
        { prompt := env.encodeArgs args
          response := ""
          chatId := ids.1
          email := ids.2
          taskExecutionId := options.taskExecutionId
          task := options.task
          subTask := options.subTask
          blocked := some true
          tokens := some 0
          sensitivity := some shouldAllow.details.detectedSensitivity }
      ⟨.blocked shouldAllow.details, [payload], false⟩
    else
      match env.fn args with
      | .error e =>
          ⟨.failed e, reportError e args options
            shouldAllow.details.detectedSensitivity, true⟩
      | .ok r =>
          ⟨.success r,
           [makeMonitoringCall env r args options
             shouldAllow.details.detectedSensitivity], true⟩

/-! ## The `OlakaiSDK` class (src/index.ts) -/

namespace OlakaiSDK

/-- How `OlakaiSDK.checkControlAPI` returns to `handleLLMCall`: either it
returned normally (execution proceeds) or it threw `OlakaiBlockedError`
carrying the control details. -/
inductive ControlCheckResult where
  | proceed
  | blockedErr (details : ControlDetails)
  deriving DecidableEq, Repr

/-- src/index.ts `OlakaiSDK.checkControlAPI`: sends the control payload inside
a `try`; on a parsed response with `allowed=false` it sends a `blocked=true`
monitoring event and throws `OlakaiBlockedError` with the response's details
(re-thrown past the `catch`); on any *delivery* failure the `catch` logs
"Control API error (allowing execution)" and returns normally. The second
component records whether the `blocked=true` monitoring event was dispatched. -/
def checkControlAPIRun (delivery : DeliveryOutcome) : ControlCheckResult × Bool :=
  match delivery with
  | .ok resp =>
      if resp.allowed then (.proceed, false)
      else (.blockedErr resp.details, true)
  | .failure _ => (.proceed, false)

/-- src/index.ts `OlakaiSDK.sendMonitoring`: awaits `sendToAPI(payload,
"monitoring")` inside a `try` whose `catch` only logs — "Don't throw -
monitoring failures shouldn't break user's code". Never throws. -/
def sendMonitoringRun (deliveryOk : Bool) : Except Thrown Unit :=
  match sendToAPIMonitoring deliveryOk with
  | .ok _ => .ok ()
  | .error _ => .ok ()

/-- Errors thrown by `OlakaiSDK` entry points. The cited source throws plain
`new Error(...)` values, modelled by `generic`. The repository also declares a
distinct not-initialized error class (`ConfigNotInitializedError` in
src/exceptions.ts, whose file is not under src/; the spec calls the kind
`NotInitializedError`); the constructor `notInitializedKind` stands for that
distinct class, and `blockedKind` for `OlakaiBlockedError`. -/
inductive SDKError where
  | notInitializedKind
  | blockedKind (details : ControlDetails)
  | generic (msg : String)
  deriving DecidableEq, Repr

/-- The providers `OlakaiSDK.wrap` accepts (src/types.ts `LLMProvider`). -/
inductive ProviderKind where
  | openai
  | anthropic
  | google
  | custom
  deriving DecidableEq, Repr

/-- src/index.ts `OlakaiSDK.wrap`: when `initialized` is false it throws
`new Error("[Olakai SDK] SDK not initialized. Call init() first.")` — a plain
generic `Error`; otherwise it selects a provider and returns the wrapped
client (`custom` throws a generic error as well). -/
def wrapRun (initialized : Bool) (provider : ProviderKind) :
    Except SDKError ProviderKind :=
  if initialized = false then
    .error (.generic "[Olakai SDK] SDK not initialized. Call init() first.")
  else
    match provider with
    | .openai => .ok .openai
    | .google => .ok .google
    | .anthropic => .ok .anthropic
    | .custom =>
        .error (.generic "[Olakai SDK] Custom provider requires implementation")

/-- Observable behavior of `OlakaiSDK.event` with respect to initialization. -/
inductive EventRun where
  | warnedAndReturned
  | dispatched
  deriving DecidableEq, Repr

/-- src/index.ts `OlakaiSDK.event`: when `initialized` is false it logs a
warning ("SDK not initialized. Call init() first.") and `return`s — it throws
nothing and reports nothing; otherwise it fires the report without awaiting. -/
def eventRun (initialized : Bool) : EventRun :=
  if initialized = false then .warnedAndReturned else .dispatched

/-- src/index.ts `OlakaiSDK.generateText`: throws a plain generic `Error` when
not initialized, otherwise delegates to the Vercel AI integration (delegation
outcome abstracted as `.ok ()`). -/
def generateTextRun (initialized : Bool) : Except SDKError Unit :=
  if initialized = false then
    .error (.generic "[Olakai SDK] SDK not initialized. Call init() first.")
  else .ok ()

/-- src/index.ts `OlakaiSDK.streamText`: same initialization guard as
`generateText`. -/
def streamTextRun (initialized : Bool) : Except SDKError Unit :=
  if initialized = false then
    .error (.generic "[Olakai SDK] SDK not initialized. Call init() first.")
  else .ok ()

end OlakaiSDK

/-! ## Canonical token/metadata envelope (src/types.ts `LLMMetadata.tokens`)
and the per-provider response-metadata extractors. -/

/-- `LLMMetadata.tokens`: `{prompt?, completion?, total?}`. -/
structure TokensMeta where
  prompt : Option Nat
  completion : Option Nat
  total : Option Nat
  deriving DecidableEq, Repr

/-- The `Partial<LLMMetadata>` fields produced by the providers'
`extractResponseMetadata`. -/
structure PartialMeta where
  tokens : Option TokensMeta := none
  finishReason : Option String := none
  model : Option String := none
  deriving DecidableEq, Repr

namespace OpenAIProvider

/-- `usage` object of an OpenAI response; each count may be absent. -/
structure Usage where
  prompt_tokens : Option Nat
  completion_tokens : Option Nat
  total_tokens : Option Nat
  deriving DecidableEq, Repr

/-- One element of `response.choices`. -/
structure Choice where
  finish_reason : Option String
  message_content : Option String
  text : Option String
  deriving DecidableEq, Repr

/-- An OpenAI response, restricted to the fields `extractResponseMetadata`
and `extractResponse` read. -/
structure Response where
  usage : Option Usage
  choices : List Choice
  model : Option String
  deriving DecidableEq, Repr

/-- src/providers/openai.ts `OpenAIProvider.extractResponseMetadata`: copies
`usage.prompt_tokens` / `usage.completion_tokens` / `usage.total_tokens`
verbatim into the canonical `tokens` (no sum is computed — a missing
`total_tokens` stays missing), plus `choices[0].finish_reason` and `model`. -/
def extractResponseMetadata (response : Response) : PartialMeta :=
  { tokens := response.usage.map fun u =>
      { prompt := u.prompt_tokens
        completion := u.completion_tokens
        total := u.total_tokens }
    finishReason := response.choices.head?.bind (·.finish_reason)
    model := response.model }

end OpenAIProvider

namespace AnthropicProvider

/-- `usage` object of an Anthropic response. -/
structure Usage where
  input_tokens : Option Nat
  output_tokens : Option Nat
  deriving DecidableEq, Repr

/-- A content block of an Anthropic message. -/
inductive ContentBlock where
  | text (t : String)
  | toolUse (name : String) (input : String)
  | other
  deriving DecidableEq, Repr

/-- An Anthropic message/response, restricted to the fields the wrapper reads. -/
structure Message where
  content : List ContentBlock
  usage : Option Usage
  stop_reason : Option String
  model : Option String
  deriving DecidableEq, Repr

/-- src/providers/anthropic.ts `AnthropicProvider.extractResponseMetadata`:
`total` is *computed* as `(usage.input_tokens || 0) + (usage.output_tokens || 0)`
(JavaScript `|| 0` maps both `undefined` and `0` to `0`), regardless of any
provider-supplied total; also extracts `stop_reason` and `model`. -/
def extractResponseMetadata (response : Message) : PartialMeta :=
  { tokens := response.usage.map fun u =>
      { prompt := u.input_tokens
        completion := u.output_tokens
        total := some (u.input_tokens.getD 0 + u.output_tokens.getD 0) }
    finishReason := response.stop_reason
    model := response.model }

/-- src/providers/anthropic.ts `AnthropicProvider.extractResponse`: maps the
content blocks to text (`text` blocks verbatim, `tool_use` blocks rendered as
`[tool_use: name(input)]`, others to `""`), drops the empty strings
(`filter(Boolean)`), and joins with newlines. -/
def extractResponse (response : Message) : String :=
  String.intercalate "\n"
    ((response.content.map fun b =>
        match b with
        | .text t => t
        | .toolUse name input => "[tool_use: " ++ name ++ "(" ++ input ++ ")]"
        | .other => "").filter (· ≠ ""))

end AnthropicProvider

namespace OpenAIProvider

/-- src/providers/openai.ts `OpenAIProvider.extractResponse`: first truthy of
`choices[0]?.message?.content`, `choices[0]?.text`, else the fallback string
(JavaScript truthiness: the empty string falls through). -/
def extractResponse (response : Response) : String :=
  ((((response.choices.head?.bind (·.message_content)).bind fun t =>
        if t = "" then none else some t).orElse fun _ =>
      (response.choices.head?.bind (·.text)).bind fun t =>
        if t = "" then none else some t)).getD "Unable to extract response"

/-- A provider callback dispatched by the wrapped `create` method. -/
inductive Callback where
  | llmCall (responseText : String)
  | llmError (e : Thrown)
  deriving DecidableEq, Repr

/-- src/providers/openai.ts `OpenAIProvider.wrapCreateMethod` (non-streaming
path), as one invocation: awaits the original method; on success it assembles
metadata, dispatches `onLLMCall` with the extracted response text, and returns
the original response object unchanged; on a throw it assembles error
metadata, dispatches `onLLMError` with the original thrown value, and
re-throws that value unchanged. -/
def wrapCreateMethodRun (call : Except Thrown Response) :
    Except Thrown Response × List Callback :=
  match call with
  | .ok resp => (.ok resp, [.llmCall (extractResponse resp)])
  | .error e => (.error e, [.llmError e])

end OpenAIProvider

/-! ## Streaming accumulator state machines

`AnthropicProvider.wrapStream` (src/providers/anthropic.ts) and
`GoogleProvider.wrapStreamResponse` (src/providers/google.ts) wrap a
provider-specific streaming handle. The wrapper's per-stream mutable state is
`accumulatedText` / `callbackFired` (plus `finalMessage` for Anthropic); every
consumption path the proxy intercepts is one operation on that state. A run of
the stream is the fold of the consumer's operation sequence over the initial
state; `reports` records the response texts passed to `onLLMCall` (the
completion reports), in emission order. -/

namespace AnthropicProvider

/-- A stream event yielded by the wrapped iterator (`result.value`). -/
inductive StreamEvent where
  | contentBlockDelta (deltaText : Option String)
  | contentBlockDeltaOther
  | textEvent (t : String)
  | messageStop (message : Option Message)
  | messageEvent (message : Option Message)
  | otherEvent
  deriving DecidableEq, Repr

/-- src/providers/anthropic.ts `extractTextFromEvent`: the text delta of a
`content_block_delta`/`text_delta` event (`event.delta.text || ""`), the text
of a `text` event, and `""` for every other (or malformed) event — the
surrounding `try/catch` returns `""` instead of raising. -/
def extractTextFromEvent : StreamEvent → String
  | .contentBlockDelta t => t.getD ""
  | .textEvent t => t
  | _ => ""

/-- Per-stream state of `wrapStream`: the closure variables `accumulatedText`,
`callbackFired`, `finalMessage`, plus the trace of emitted completion
reports. -/
structure StreamState where
  accumulatedText : String
  callbackFired : Bool
  finalMessage : Option Message
  reports : List String
  deriving DecidableEq, Repr

/-- The state `wrapStream` creates for one streaming call. -/
def initStream : StreamState :=
  { accumulatedText := "", callbackFired := false, finalMessage := none
    reports := [] }

/-- src/providers/anthropic.ts `fireCallback`: check-and-set of
`callbackFired`; on the first call it assembles the metadata (from
`finalMessage` when present) and emits exactly one `onLLMCall` report carrying
`accumulatedText`; later calls return immediately. -/
def fireCallback (s : StreamState) : StreamState :=
  if s.callbackFired then s
  else { s with callbackFired := true
                reports := s.reports ++ [s.accumulatedText] }

/-- One consumption operation on the wrapped stream, one per interception
point of the proxy in `wrapStream` / `createWrappedIterator`. -/
inductive StreamOp where
  | nextEvent (ev : StreamEvent)
  | nextDone
  | iterReturn
  | finalMessageAwaited (msg : Option Message)
  | getFinalMessageCalled (msg : Option Message)
  | textAwaited (t : String)
  | onTerminalHandler (arg : Option Message)
  | onTextHandler (t : String)
  deriving DecidableEq, Repr

/-- Effect of one consumption operation, following the source:
* `nextEvent ev` — `next()` yielded a value: extract its text and append when
  non-empty; remember the message of a `message_stop`/`message` event;
* `nextDone` — `next()` returned `done`: fire the callback;
* `iterReturn` — `return()` (early break/discard): fire the callback;
* `finalMessageAwaited`/`getFinalMessageCalled` — the final-message
  promise/accessor resolved to `msg`: store it, seed `accumulatedText` from
  `extractResponse` when nothing was accumulated, fire the callback;
* `textAwaited t` — the `text()` accessor resolved: overwrite
  `accumulatedText` with `t`, fire the callback;
* `onTerminalHandler` — a subscribed `"message"`/`"end"`/`"finalMessage"`
  event handler ran: store the message argument when present, fire;
* `onTextHandler t` — a subscribed `"text"` handler ran: append `t`. -/
def streamStep (s : StreamState) : StreamOp → StreamState
  | .nextEvent ev =>
      let t := extractTextFromEvent ev
      let s1 := if t ≠ "" then
          { s with accumulatedText := s.accumulatedText ++ t } else s
      match ev with
      | .messageStop (some m) => { s1 with finalMessage := some m }
      | .messageEvent (some m) => { s1 with finalMessage := some m }
      | _ => s1
  | .nextDone => fireCallback s
  | .iterReturn => fireCallback s
  | .finalMessageAwaited msg =>
      let s1 := { s with finalMessage := msg }
      let s2 := match msg with
        | some m =>
            let t := extractResponse m
            if t ≠ "" ∧ s1.accumulatedText = "" then
              { s1 with accumulatedText := t } else s1
        | none => s1
      fireCallback s2
  | .getFinalMessageCalled msg =>
      let s1 := { s with finalMessage := msg }
      let s2 := match msg with
        | some m =>
            let t := extractResponse m
            if t ≠ "" ∧ s1.accumulatedText = "" then
              { s1 with accumulatedText := t } else s1
        | none => s1
      fireCallback s2
  | .textAwaited t => fireCallback { s with accumulatedText := t }
  | .onTerminalHandler arg =>
      let s1 := match arg with
        | some m => { s with finalMessage := some m }
        | none => s
      fireCallback s1
  | .onTextHandler t => { s with accumulatedText := s.accumulatedText ++ t }

/-- The operations that reach `fireCallback` (every supported completion
path: end of iteration, early termination, the final-result promise and
accessor, the `text()` accessor, and the terminal event subscriptions). -/
def StreamOp.isTerminal : StreamOp → Bool
  | .nextEvent _ => false
  | .onTextHandler _ => false
  | _ => true

/-- A consumer's whole interaction with one wrapped stream. -/
def runStream (s : StreamState) (ops : List StreamOp) : StreamState :=
  ops.foldl streamStep s


end AnthropicProvider

namespace GoogleProvider

/-- A chunk yielded by the wrapped Google stream iterator. -/
inductive Chunk where
  | candidateParts (parts : List (Option String))
  | textMethod (t : String)
  | textProp (t : String)
  | malformed
  deriving DecidableEq, Repr

/-- src/providers/google.ts `extractTextFromChunk`: joins
`candidates[0].content.parts[].text || ""`, or takes the chunk's `text()`
method / `text` property, and returns `""` for any other shape — the
surrounding `try/catch` returns `""` instead of raising. -/
def extractTextFromChunk : Chunk → String
  | .candidateParts ps => String.join (ps.map (·.getD ""))
  | .textMethod t => t
  | .textProp t => t
  | .malformed => ""

/-- The final aggregate response the `response` promise resolves to
(fields read by `extractTextFromResponse`). -/
structure FinalResponse where
  textVal : Option String
  candidateParts : Option (List (Option String))
  deriving DecidableEq, Repr

/-- src/providers/google.ts `extractTextFromResponse`: the response's `text`
(method or string property), else the joined candidate parts, else `""`. -/
def extractTextFromResponse (r : FinalResponse) : String :=
  match r.textVal with
  | some t => t
  | none =>
      match r.candidateParts with
      | some ps => String.join (ps.map (·.getD ""))
      | none => ""

/-- Per-stream state of `wrapStreamResponse`: the closure variables
`accumulatedText` and `callbackFired`, plus the trace of emitted completion
reports. -/
structure StreamState where
  accumulatedText : String
  callbackFired : Bool
  reports : List String
  deriving DecidableEq, Repr

/-- The state `wrapStreamResponse` creates for one streaming call. -/
def initStream : StreamState :=
  { accumulatedText := "", callbackFired := false, reports := [] }

/-- src/providers/google.ts `fireCallback`: check-and-set of `callbackFired`;
the first call assembles the metadata (from the final response when given) and
emits exactly one `onLLMCall` report carrying `accumulatedText`. -/
def fireCallback (s : StreamState) : StreamState :=
  if s.callbackFired then s
  else { s with callbackFired := true
                reports := s.reports ++ [s.accumulatedText] }

/-- One consumption operation on the wrapped Google stream. -/
inductive StreamOp where
  | nextChunk (c : Chunk)
  | nextDone
  | iterReturn
  | responseAwaited (r : Option FinalResponse)
  deriving DecidableEq, Repr

/-- Effect of one consumption operation, following the source:
* `nextChunk c` — `next()` yielded a value: extract its text, append when
  non-empty;
* `nextDone` — `next()` returned `done`: fire the callback;
* `iterReturn` — `return()` (early break/discard): fire the callback;
* `responseAwaited r` — the `response` promise resolved: when the callback has
  not fired and the final response is non-null, seed `accumulatedText` from it
  if nothing was accumulated; then fire the callback. -/
def streamStep (s : StreamState) : StreamOp → StreamState
  | .nextChunk c =>
      let t := extractTextFromChunk c
      if t ≠ "" then { s with accumulatedText := s.accumulatedText ++ t } else s
  | .nextDone => fireCallback s
  | .iterReturn => fireCallback s
  | .responseAwaited r =>
      let s1 :=
        if s.callbackFired = false then
          match r with
          | some fr =>
              let t := extractTextFromResponse fr
              if t ≠ "" ∧ s.accumulatedText = "" then
                { s with accumulatedText := t } else s
          | none => s
        else s
      fireCallback s1

/-- The operations that reach `fireCallback`. -/
def StreamOp.isTerminal : StreamOp → Bool
  | .nextChunk _ => false
  | _ => true

/-- A consumer's whole interaction with one wrapped stream. -/
def runStream (s : StreamState) (ops : List StreamOp) : StreamState :=
  ops.foldl streamStep s


end GoogleProvider

/-! ## Concrete fixtures

Closed instances used to evaluate the embedded operations at concrete
inputs. -/

/-- A control delivery that succeeded with an `allowed=true` verdict. -/
def sampleControlAllowed : DeliveryOutcome :=
  .ok { allowed := true
        details := { detectedSensitivity := [], isAllowedPersona := true } }

/-- A monitoring environment over `Nat` inputs/results in which initialization
succeeded, the control delivery succeeded with an allow verdict, every
monitoring delivery fails, and the wrapped callable is `n ↦ n + 1`. -/
def envOkNat : MonitorEnv Nat Nat :=
  { configOk := true
    controlDelivery := sampleControlAllowed
    monitoringDeliveryOk := false
    fn := fun n => .ok (n + 1)
    encodeArgs := fun n => toString n
    encodeResult := fun n => toString n
    elapsedMs := 7 }

/-- `envOkNat` with the control delivery failing (endpoint unreachable). -/
def envControlFailureNat : MonitorEnv Nat Nat :=
  { envOkNat with
    controlDelivery :=
      .failure (.err "fetch failed: control endpoint unreachable" none) }

/-- `envOkNat` with a wrapped callable that throws a non-`Error` value. -/
def envFnThrowsNat : MonitorEnv Nat Nat :=
  { envOkNat with fn := fun _ => .error (.nonError "a thrown string") }

/-- `envOkNat` with a control delivery that *succeeded* and returned an
`allowed=false` verdict with a detected sensitivity. -/
def envDeniedControlNat : MonitorEnv Nat Nat :=
  { envOkNat with
    controlDelivery :=
      .ok { allowed := false
            details := { detectedSensitivity := ["credit-card"]
                         isAllowedPersona := false } } }

/-- Monitor options whose `chatId` and `email` resolver functions both throw. -/
def optsThrowingResolvers : MonitorOptions Nat :=
  { chatId := .fn fun _ => .error (.err "chatId resolver exploded" none)
    email := .fn fun _ => .error (.err "email resolver exploded" none) }

/-- Monitor options whose `chatId` and `email` are the static empty string. -/
def optsEmptyIds : MonitorOptions Nat :=
  { chatId := .str "", email := .str "" }

/-! ## Proof development -/

lemma makeMonitoringCall_eq {α ρ : Type} (env : MonitorEnv α ρ) (r : ρ)
    (args : α) (options : MonitorOptions α) (ds : List String) :
    makeMonitoringCall env r args options ds =
      { prompt := env.encodeArgs args
        response := env.encodeResult r
        chatId := (resolveIdentifiers options args).1
        email := (resolveIdentifiers options args).2
        taskExecutionId := options.taskExecutionId
        task := match options.task with
          | some t => if t = "" then none else some t
          | none => none
        subTask := match options.subTask with
          | some t => if t = "" then none else some t
          | none => none
        tokens := some 0
        requestTime := some env.elapsedMs
        errorMessage := none
        blocked := some false
        sensitivity := some ds } := by
  cases h : sendToAPIMonitoring env.monitoringDeliveryOk <;>
    simp [makeMonitoringCall, h]

namespace AnthropicProvider

lemma fireCallback_fired (s : StreamState) : (fireCallback s).callbackFired = true := by
  by_cases h : s.callbackFired <;> simp [fireCallback, h]

lemma fireCallback_reports (s : StreamState) :
    (fireCallback s).reports =
      s.reports ++ (if s.callbackFired then [] else [s.accumulatedText]) := by
  by_cases h : s.callbackFired <;> simp [fireCallback, h]

lemma streamStep_nextEvent_acc (s : StreamState) (ev : StreamEvent) :
    (streamStep s (.nextEvent ev)).accumulatedText =
      s.accumulatedText ++ extractTextFromEvent ev := by
  cases ev with
  | contentBlockDelta t =>
      simp only [streamStep]; split <;> simp_all
  | contentBlockDeltaOther =>
      simp only [streamStep]; split <;> simp_all [extractTextFromEvent]
  | textEvent t =>
      simp only [streamStep]; split <;> simp_all
  | messageStop m =>
      cases m <;> (simp only [streamStep]; split <;> simp_all)
  | messageEvent m =>
      cases m <;> (simp only [streamStep]; split <;> simp_all)
  | otherEvent =>
      simp only [streamStep]; split <;> simp_all [extractTextFromEvent]

lemma streamStep_nextEvent_fired (s : StreamState) (ev : StreamEvent) :
    (streamStep s (.nextEvent ev)).callbackFired = s.callbackFired := by
  cases ev with
  | contentBlockDelta t => simp only [streamStep]; split <;> rfl
  | contentBlockDeltaOther => simp only [streamStep]; split <;> rfl
  | textEvent t => simp only [streamStep]; split <;> rfl
  | messageStop m => cases m <;> (simp only [streamStep]; split <;> rfl)
  | messageEvent m => cases m <;> (simp only [streamStep]; split <;> rfl)
  | otherEvent => simp only [streamStep]; split <;> rfl

lemma streamStep_nextEvent_reports (s : StreamState) (ev : StreamEvent) :
    (streamStep s (.nextEvent ev)).reports = s.reports := by
  cases ev with
  | contentBlockDelta t => simp only [streamStep]; split <;> rfl
  | contentBlockDeltaOther => simp only [streamStep]; split <;> rfl
  | textEvent t => simp only [streamStep]; split <;> rfl
  | messageStop m => cases m <;> (simp only [streamStep]; split <;> rfl)
  | messageEvent m => cases m <;> (simp only [streamStep]; split <;> rfl)
  | otherEvent => simp only [streamStep]; split <;> rfl

lemma streamStep_fired (s : StreamState) (op : StreamOp) :
    (streamStep s op).callbackFired = (s.callbackFired || op.isTerminal) := by
  cases op with
  | nextEvent ev =>
      rw [streamStep_nextEvent_fired]; simp [StreamOp.isTerminal]
  | onTextHandler t => simp [streamStep, StreamOp.isTerminal]
  | nextDone => simp [streamStep, StreamOp.isTerminal, fireCallback_fired]
  | iterReturn => simp [streamStep, StreamOp.isTerminal, fireCallback_fired]
  | finalMessageAwaited m =>
      simp [streamStep, StreamOp.isTerminal, fireCallback_fired]
  | getFinalMessageCalled m =>
      simp [streamStep, StreamOp.isTerminal, fireCallback_fired]
  | textAwaited t => simp [streamStep, StreamOp.isTerminal, fireCallback_fired]
  | onTerminalHandler a =>
      simp [streamStep, StreamOp.isTerminal, fireCallback_fired]

lemma fireCallback_reports_len (s : StreamState) :
    (fireCallback s).reports.length =
      s.reports.length + (if s.callbackFired = false then 1 else 0) := by
  by_cases h : s.callbackFired <;> simp [fireCallback_reports, h]

lemma streamStep_reports_len (s : StreamState) (op : StreamOp) :
    (streamStep s op).reports.length =
      s.reports.length +
        (if s.callbackFired = false ∧ op.isTerminal then 1 else 0) := by
  cases op with
  | nextEvent ev =>
      rw [streamStep_nextEvent_reports]; simp [StreamOp.isTerminal]
  | onTextHandler t => simp [streamStep, StreamOp.isTerminal]
  | nextDone =>
      simp only [streamStep, StreamOp.isTerminal, and_true,
        fireCallback_reports_len]
  | iterReturn =>
      simp only [streamStep, StreamOp.isTerminal, and_true,
        fireCallback_reports_len]
  | finalMessageAwaited m =>
      cases m with
      | none =>
          simp [streamStep, StreamOp.isTerminal, fireCallback_reports_len]
      | some msg =>
          simp only [streamStep, StreamOp.isTerminal, and_true,
            fireCallback_reports_len]
          split <;> rfl
  | getFinalMessageCalled m =>
      cases m with
      | none =>
          simp [streamStep, StreamOp.isTerminal, fireCallback_reports_len]
      | some msg =>
          simp only [streamStep, StreamOp.isTerminal, and_true,
            fireCallback_reports_len]
          split <;> rfl
  | textAwaited t =>
      simp [streamStep, StreamOp.isTerminal, fireCallback_reports_len]
  | onTerminalHandler a =>
      cases a <;>
        simp [streamStep, StreamOp.isTerminal, fireCallback_reports_len]

lemma runStream_fired (ops : List StreamOp) :
    ∀ s : StreamState,
      (runStream s ops).callbackFired =
        (s.callbackFired || ops.any (·.isTerminal)) := by
  induction ops with
  | nil => intro s; simp [runStream]
  | cons op rest ih =>
      intro s
      have h := ih (streamStep s op)
      simp only [runStream, List.foldl_cons] at h ⊢
      rw [h, streamStep_fired, List.any_cons, Bool.or_assoc]

lemma runStream_reports_len (ops : List StreamOp) :
    ∀ s : StreamState,
      (runStream s ops).reports.length =
        s.reports.length +
          (if s.callbackFired = false ∧ ops.any (·.isTerminal) then 1 else 0) := by
  induction ops with
  | nil => intro s; simp [runStream]
  | cons op rest ih =>
      intro s
      have h := ih (streamStep s op)
      simp only [runStream, List.foldl_cons] at h ⊢
      rw [h, streamStep_reports_len, streamStep_fired, List.any_cons]
      by_cases hf : s.callbackFired <;>
        by_cases ht : op.isTerminal <;>
        by_cases hr : rest.any (·.isTerminal) <;>
        simp [hf, ht, hr]

lemma runStream_events (cs : List StreamEvent) :
    ∀ s : StreamState,
      (runStream s (cs.map .nextEvent)).accumulatedText =
          cs.foldl (fun a ev => a ++ extractTextFromEvent ev)
            s.accumulatedText ∧
        (runStream s (cs.map .nextEvent)).callbackFired = s.callbackFired ∧
        (runStream s (cs.map .nextEvent)).reports = s.reports := by
  induction cs with
  | nil => intro s; simp [runStream]
  | cons ev rest ih =>
      intro s
      have h := ih (streamStep s (.nextEvent ev))
      simp only [List.map_cons, runStream, List.foldl_cons] at h ⊢
      rw [streamStep_nextEvent_acc, streamStep_nextEvent_fired,
        streamStep_nextEvent_reports] at h
      exact h

end AnthropicProvider

namespace GoogleProvider

lemma gfireCallback_fired (s : StreamState) : (fireCallback s).callbackFired = true := by
  by_cases h : s.callbackFired <;> simp [fireCallback, h]

lemma gfireCallback_reports (s : StreamState) :
    (fireCallback s).reports =
      s.reports ++ (if s.callbackFired then [] else [s.accumulatedText]) := by
  by_cases h : s.callbackFired <;> simp [fireCallback, h]

lemma gfireCallback_reports_len (s : StreamState) :
    (fireCallback s).reports.length =
      s.reports.length + (if s.callbackFired = false then 1 else 0) := by
  by_cases h : s.callbackFired <;> simp [gfireCallback_reports, h]

lemma streamStep_nextChunk_acc (s : StreamState) (c : Chunk) :
    (streamStep s (.nextChunk c)).accumulatedText =
      s.accumulatedText ++ extractTextFromChunk c := by
  simp only [streamStep]; split <;> simp_all

lemma streamStep_nextChunk_fired (s : StreamState) (c : Chunk) :
    (streamStep s (.nextChunk c)).callbackFired = s.callbackFired := by
  simp only [streamStep]; split <;> rfl

lemma streamStep_nextChunk_reports (s : StreamState) (c : Chunk) :
    (streamStep s (.nextChunk c)).reports = s.reports := by
  simp only [streamStep]; split <;> rfl

lemma gstreamStep_fired (s : StreamState) (op : StreamOp) :
    (streamStep s op).callbackFired = (s.callbackFired || op.isTerminal) := by
  cases op with
  | nextChunk c =>
      rw [streamStep_nextChunk_fired]; simp [StreamOp.isTerminal]
  | nextDone => simp [streamStep, StreamOp.isTerminal, gfireCallback_fired]
  | iterReturn => simp [streamStep, StreamOp.isTerminal, gfireCallback_fired]
  | responseAwaited r =>
      simp only [streamStep, StreamOp.isTerminal, Bool.or_true]
      split
      · cases r with
        | none => simp [gfireCallback_fired]
        | some fr => split <;> simp [gfireCallback_fired]
      · simp [gfireCallback_fired]

lemma gstreamStep_reports_len (s : StreamState) (op : StreamOp) :
    (streamStep s op).reports.length =
      s.reports.length +
        (if s.callbackFired = false ∧ op.isTerminal then 1 else 0) := by
  cases op with
  | nextChunk c =>
      rw [streamStep_nextChunk_reports]; simp [StreamOp.isTerminal]
  | nextDone =>
      simp only [streamStep, StreamOp.isTerminal, and_true,
        gfireCallback_reports_len]
  | iterReturn =>
      simp only [streamStep, StreamOp.isTerminal, and_true,
        gfireCallback_reports_len]
  | responseAwaited r =>
      simp only [streamStep, StreamOp.isTerminal, and_true]
      split
      · cases r with
        | none => simp_all [gfireCallback_reports_len]
        | some fr =>
            simp only [gfireCallback_reports_len]
            split <;> simp_all
      · simp_all [gfireCallback_reports_len]

lemma grunStream_fired (ops : List StreamOp) :
    ∀ s : StreamState,
      (runStream s ops).callbackFired =
        (s.callbackFired || ops.any (·.isTerminal)) := by
  induction ops with
  | nil => intro s; simp [runStream]
  | cons op rest ih =>
      intro s
      have h := ih (streamStep s op)
      simp only [runStream, List.foldl_cons] at h ⊢
      rw [h, gstreamStep_fired, List.any_cons, Bool.or_assoc]

lemma grunStream_reports_len (ops : List StreamOp) :
    ∀ s : StreamState,
      (runStream s ops).reports.length =
        s.reports.length +
          (if s.callbackFired = false ∧ ops.any (·.isTerminal) then 1 else 0) := by
  induction ops with
  | nil => intro s; simp [runStream]
  | cons op rest ih =>
      intro s
      have h := ih (streamStep s op)
      simp only [runStream, List.foldl_cons] at h ⊢
      rw [h, gstreamStep_reports_len, gstreamStep_fired, List.any_cons]
      by_cases hf : s.callbackFired <;>
        by_cases ht : op.isTerminal <;>
        by_cases hr : rest.any (·.isTerminal) <;>
        simp [hf, ht, hr]

lemma runStream_chunks (cs : List Chunk) :
    ∀ s : StreamState,
      (runStream s (cs.map .nextChunk)).accumulatedText =
          cs.foldl (fun a c => a ++ extractTextFromChunk c)
            s.accumulatedText ∧
        (runStream s (cs.map .nextChunk)).callbackFired = s.callbackFired ∧
        (runStream s (cs.map .nextChunk)).reports = s.reports := by
  induction cs with
  | nil => intro s; simp [runStream]
  | cons c rest ih =>
      intro s
      have h := ih (streamStep s (.nextChunk c))
      simp only [List.map_cons, runStream, List.foldl_cons] at h ⊢
      rw [streamStep_nextChunk_acc, streamStep_nextChunk_fired,
        streamStep_nextChunk_reports] at h
      exact h

end GoogleProvider

/-! ## Claims -/

/-- C1 (counterexample): on the `OlakaiSDK` class path — one of the two
control-check implementations the claim ranges over — a control delivery
failure at a concrete unreachable-endpoint error makes `checkControlAPI`
return normally with no `blocked=true` report: execution proceeds and no
execution-blocked error is raised, so a delivery failure is *not* treated as
disallow on every path. -/
theorem C1_counterexample :
    OlakaiSDK.checkControlAPIRun
        (.failure (.err "fetch failed: control endpoint unreachable" none)) =
      (.proceed, false) := rfl

/-- C1 (amended): on the generic `monitor`/`wrapFunction` path, a control
delivery failure (network error, breaker open) is treated as disallow: the
wrapper raises `OlakaiBlockedError` and never executes the wrapped callable;
on the `OlakaiSDK.checkControlAPI` path, however, a delivery failure is logged
and treated as allow. -/
theorem C1_fail_closed_amended :
    (∀ {α ρ : Type} (env : MonitorEnv α ρ) (options : MonitorOptions α)
        (args : α) (e : Thrown),
        env.configOk = true → env.controlDelivery = .failure e →
        (monitorRun env options args).outcome =
            .blocked { detectedSensitivity := [], isAllowedPersona := false } ∧
          (monitorRun env options args).fnExecuted = false) ∧
      ∀ e : Thrown,
        OlakaiSDK.checkControlAPIRun (.failure e) = (.proceed, false) := by
  constructor
  · intro α ρ env options args e hc hd
    simp [monitorRun, hc, hd, shouldAllowCall]
  · intro e; rfl

/-- C1 (witness): the amended fail-closed property evaluated at a concrete
environment whose control delivery fails. -/
theorem C1_fail_closed_amended_witness :
    (monitorRun envControlFailureNat {} 0).outcome =
        .blocked { detectedSensitivity := [], isAllowedPersona := false } ∧
      (monitorRun envControlFailureNat {} 0).fnExecuted = false :=
  C1_fail_closed_amended.1 envControlFailureNat {} 0
    (.err "fetch failed: control endpoint unreachable" none) rfl rfl

/-- C5 (code behavior at the failing input): a control delivery that
*succeeds* with the verdict `allowed=false` (detected sensitivity
`["credit-card"]`) is mapped by `shouldAllowCall` to `allowed=true` — the
response body is ignored — so the monitor wrapper executes the wrapped
callable, resolves successfully, and dispatches only a `blocked=false`
monitoring payload; no blocked report is sent and no execution-blocked error
is raised. -/
theorem C5_code_behavior_at_failing_input :
    (shouldAllowCall (α := Nat) {} 7 (fun n => toString n)
          (.ok { allowed := false
                 details := { detectedSensitivity := ["credit-card"]
                              isAllowedPersona := false } })).1 =
        { allowed := true
          details := { detectedSensitivity := [], isAllowedPersona := true } } ∧
      (monitorRun envDeniedControlNat {} 7).outcome = .success 8 ∧
      (monitorRun envDeniedControlNat {} 7).fnExecuted = true ∧
      (monitorRun envDeniedControlNat {} 7).dispatched.map (·.blocked) =
        [some false] := by
  refine ⟨rfl, rfl, rfl, rfl⟩

/-- C6 (counterexample): an OpenAI response carrying
`usage = {prompt_tokens: 10, completion_tokens: 5}` and no `total_tokens`
yields canonical tokens with `total` *unset* — not the sum `15` — because
`OpenAIProvider.extractResponseMetadata` copies `total_tokens` verbatim. -/
theorem C6_counterexample :
    (OpenAIProvider.extractResponseMetadata
          { usage := some { prompt_tokens := some 10
                            completion_tokens := some 5
                            total_tokens := none }
            choices := []
            model := none }).tokens =
        some { prompt := some 10, completion := some 5, total := none } ∧
      ((OpenAIProvider.extractResponseMetadata
            { usage := some { prompt_tokens := some 10
                              completion_tokens := some 5
                              total_tokens := none }
              choices := []
              model := none }).tokens.bind TokensMeta.total) ≠ some 15 := by
  refine ⟨rfl, by decide⟩

/-- C6 (amended): the Anthropic extractor always *computes* `tokens.total` as
the sum of the prompt and completion counts (`(input_tokens || 0) +
(output_tokens || 0)`), so `{prompt:10, completion:5}` yields `total = 15`;
the OpenAI extractor instead copies the provider's `total_tokens` field
verbatim, leaving `total` unset when the provider does not supply it. -/
theorem C6_token_total_amended :
    (∀ (i o : Option Nat) (c : List AnthropicProvider.ContentBlock)
        (sr m : Option String),
        (AnthropicProvider.extractResponseMetadata
            { content := c
              usage := some { input_tokens := i, output_tokens := o }
              stop_reason := sr
              model := m }).tokens =
          some { prompt := i, completion := o
                 total := some (i.getD 0 + o.getD 0) }) ∧
      ((AnthropicProvider.extractResponseMetadata
            { content := []
              usage := some { input_tokens := some 10, output_tokens := some 5 }
              stop_reason := none
              model := none }).tokens.bind TokensMeta.total = some 15) ∧
      ∀ (u : OpenAIProvider.Usage) (cs : List OpenAIProvider.Choice)
        (m : Option String),
        (OpenAIProvider.extractResponseMetadata
            { usage := some u, choices := cs, model := m }).tokens =
          some { prompt := u.prompt_tokens, completion := u.completion_tokens
                 total := u.total_tokens } :=
  ⟨fun _ _ _ _ _ => rfl, rfl, fun _ _ _ => rfl⟩

/-- C9 (counterexample): before initialization, `OlakaiSDK.event` logs a
warning and returns silently — it raises nothing at all — and `OlakaiSDK.wrap`
throws a plain generic `Error`, which is not the distinct not-initialized
error kind. -/
theorem C9_counterexample :
    OlakaiSDK.eventRun false = .warnedAndReturned ∧
      OlakaiSDK.wrapRun false .openai =
        .error
          (.generic "[Olakai SDK] SDK not initialized. Call init() first.") ∧
      OlakaiSDK.SDKError.generic
          "[Olakai SDK] SDK not initialized. Call init() first." ≠
        OlakaiSDK.SDKError.notInitializedKind := by
  refine ⟨rfl, rfl, by decide⟩

/-- C9 (amended): operations taken before initialization do not raise the
distinct not-initialized error kind: `wrap` (for every provider),
`generateText` and `streamText` throw a plain generic `Error` with the message
"[Olakai SDK] SDK not initialized. Call init() first.", and `event` logs a
warning and returns silently without raising or reporting. -/
theorem C9_not_initialized_amended :
    (∀ p : OlakaiSDK.ProviderKind,
        OlakaiSDK.wrapRun false p =
          .error
            (.generic "[Olakai SDK] SDK not initialized. Call init() first.")) ∧
      OlakaiSDK.eventRun false = .warnedAndReturned ∧
      OlakaiSDK.generateTextRun false =
        .error
          (.generic "[Olakai SDK] SDK not initialized. Call init() first.") ∧
      OlakaiSDK.streamTextRun false =
        .error
          (.generic "[Olakai SDK] SDK not initialized. Call init() first.") :=
  ⟨fun _ => rfl, rfl, rfl, rfl⟩

/-- C2: for both streaming accumulators (Anthropic `wrapStream`, Google
`wrapStreamResponse`): (a) the per-stream `callbackFired` flag is monotone —
once `true` it stays `true`, so it transitions false→true at most once; and
(b) over *any* sequence of consumption operations (iterating to exhaustion,
awaiting the final-result accessor or promise, subscribing to terminal events,
breaking early, in any combination), the flag ends `true` exactly when some
completion-path operation occurred, and the number of emitted completion
reports is exactly one in that case and zero otherwise. -/
theorem C2_completion_exactly_once :
    ((∀ (s : AnthropicProvider.StreamState) (op : AnthropicProvider.StreamOp),
        s.callbackFired = true →
        (AnthropicProvider.streamStep s op).callbackFired = true) ∧
      ∀ ops : List AnthropicProvider.StreamOp,
        (AnthropicProvider.runStream AnthropicProvider.initStream
              ops).callbackFired =
            ops.any (·.isTerminal) ∧
          (AnthropicProvider.runStream AnthropicProvider.initStream
                ops).reports.length =
            (if ops.any (·.isTerminal) then 1 else 0)) ∧
      (∀ (s : GoogleProvider.StreamState) (op : GoogleProvider.StreamOp),
        s.callbackFired = true →
        (GoogleProvider.streamStep s op).callbackFired = true) ∧
      ∀ ops : List GoogleProvider.StreamOp,
        (GoogleProvider.runStream GoogleProvider.initStream
              ops).callbackFired =
            ops.any (·.isTerminal) ∧
          (GoogleProvider.runStream GoogleProvider.initStream
                ops).reports.length =
            (if ops.any (·.isTerminal) then 1 else 0) := by
  refine ⟨⟨fun s op h => ?_, fun ops => ⟨?_, ?_⟩⟩,
    fun s op h => ?_, fun ops => ⟨?_, ?_⟩⟩
  · rw [AnthropicProvider.streamStep_fired, h]; simp
  · rw [AnthropicProvider.runStream_fired]
    simp [AnthropicProvider.initStream]
  · rw [AnthropicProvider.runStream_reports_len]
    simp [AnthropicProvider.initStream]
  · rw [GoogleProvider.gstreamStep_fired, h]; simp
  · rw [GoogleProvider.grunStream_fired]
    simp [GoogleProvider.initStream]
  · rw [GoogleProvider.grunStream_reports_len]
    simp [GoogleProvider.initStream]

/-- C2 (witness): the monotonicity part evaluated at a concrete already-fired
Anthropic stream state and a concrete operation. -/
theorem C2_completion_exactly_once_witness :
    (AnthropicProvider.streamStep
          { accumulatedText := "ab", callbackFired := true
            finalMessage := none, reports := ["ab"] }
          .nextDone).callbackFired = true :=
  C2_completion_exactly_once.1.1
    { accumulatedText := "ab", callbackFired := true
      finalMessage := none, reports := ["ab"] }
    .nextDone rfl

/-- C3: error passthrough. (a) Whenever the monitor wrapper executed the
wrapped callable and the callable threw `e` — any thrown value, `Error` or
not — the wrapper's promise rejects with exactly that `e`; (b) when monitoring
was active and error reporting is enabled (the `onMonitoredFunctionError ??
true` default), a monitoring payload carrying the error message is dispatched
before the re-raise; (c) the OpenAI provider's wrapped `create` likewise
dispatches `onLLMError` with the original thrown value and re-throws it
unchanged. -/
theorem C3_error_passthrough :
    (∀ {α ρ : Type} (env : MonitorEnv α ρ) (options : MonitorOptions α)
        (args : α) (e : Thrown),
        env.fn args = .error e →
        (monitorRun env options args).fnExecuted = true →
        (monitorRun env options args).outcome = .failed e) ∧
      (∀ {α ρ : Type} (env : MonitorEnv α ρ) (options : MonitorOptions α)
        (args : α) (e : Thrown),
        env.configOk = true → env.fn args = .error e →
        (monitorRun env options args).fnExecuted = true →
        options.onMonitoredFunctionError.getD true = true →
        ∃ p ∈ (monitorRun env options args).dispatched,
          p.errorMessage = some (createErrorInfoMessage e)) ∧
      ∀ e : Thrown,
        (OpenAIProvider.wrapCreateMethodRun (.error e)).1 = .error e ∧
          (OpenAIProvider.wrapCreateMethodRun (.error e)).2 = [.llmError e] := by
  refine ⟨fun env options args e hf hx => ?_,
    fun env options args e hc hf hx hflag => ?_, fun e => ⟨rfl, rfl⟩⟩
  · by_cases hc : env.configOk
    · cases hd : env.controlDelivery with
      | ok resp => simp [monitorRun, hc, hd, shouldAllowCall, hf]
      | failure e' =>
          exfalso
          simp [monitorRun, hc, hd, shouldAllowCall] at hx
    · simp [monitorRun, hc, hf]
  · cases hd : env.controlDelivery with
    | ok resp =>
        simp [monitorRun, hc, hd, shouldAllowCall, hf, reportError, hflag]
    | failure e' =>
        exfalso
        simp [monitorRun, hc, hd, shouldAllowCall] at hx

/-- C3 (witness): error passthrough evaluated for a concrete callable that
throws a non-`Error` value under a concrete environment. -/
theorem C3_error_passthrough_witness :
    (monitorRun envFnThrowsNat {} 0).outcome =
        .failed (.nonError "a thrown string") ∧
      ∃ p ∈ (monitorRun envFnThrowsNat {} 0).dispatched,
        p.errorMessage =
          some (createErrorInfoMessage (.nonError "a thrown string")) :=
  ⟨C3_error_passthrough.1 envFnThrowsNat {} 0 (.nonError "a thrown string")
      rfl rfl,
    C3_error_passthrough.2.1 envFnThrowsNat {} 0 (.nonError "a thrown string")
      rfl rfl rfl rfl⟩

/-- C4: reporting never breaks the caller. (a) When every monitoring delivery
fails, a wrapped callable that executed and succeeded with `r` still settles
the wrapper's promise with exactly `r` — the delivery error is caught inside
`makeMonitoringCall` and only logged; (b) `OlakaiSDK.sendMonitoring` never
throws, whatever the delivery outcome. -/
theorem C4_reporting_never_breaks_caller :
    (∀ {α ρ : Type} (env : MonitorEnv α ρ) (options : MonitorOptions α)
        (args : α) (r : ρ),
        env.monitoringDeliveryOk = false →
        env.fn args = .ok r →
        (monitorRun env options args).fnExecuted = true →
        (monitorRun env options args).outcome = .success r) ∧
      ∀ deliveryOk : Bool, OlakaiSDK.sendMonitoringRun deliveryOk = .ok () := by
  refine ⟨fun env options args r _ hf hx => ?_, fun deliveryOk => ?_⟩
  · by_cases hc : env.configOk
    · cases hd : env.controlDelivery with
      | ok resp => simp [monitorRun, hc, hd, shouldAllowCall, hf]
      | failure e' =>
          exfalso
          simp [monitorRun, hc, hd, shouldAllowCall] at hx
    · simp [monitorRun, hc, hf]
  · cases deliveryOk <;> rfl

/-- C4 (witness): the fail-safe reporting property evaluated at a concrete
environment in which every monitoring delivery fails. -/
theorem C4_reporting_never_breaks_caller_witness :
    (monitorRun envOkNat {} 41).outcome = .success 42 ∧
      OlakaiSDK.sendMonitoringRun false = .ok () :=
  ⟨C4_reporting_never_breaks_caller.1 envOkNat {} 41 42 rfl rfl rfl,
    C4_reporting_never_breaks_caller.2 false⟩

/-- C7: accumulated-text integrity. For both accumulators, consuming the
wrapped iterator to exhaustion over any chunk sequence emits exactly one
completion report whose response text is the in-order concatenation of the
per-chunk extracted text deltas (starting from the empty string); and a chunk
whose shape the extractor does not recognize contributes the empty string
instead of raising. In particular the deltas "a","b","c" report "abc". -/
theorem C7_accumulated_text_integrity :
    (∀ cs : List AnthropicProvider.StreamEvent,
        (AnthropicProvider.runStream AnthropicProvider.initStream
            (cs.map .nextEvent ++ [.nextDone])).reports =
          [cs.foldl
            (fun a ev => a ++ AnthropicProvider.extractTextFromEvent ev) ""]) ∧
      AnthropicProvider.extractTextFromEvent .otherEvent = "" ∧
      (AnthropicProvider.runStream AnthropicProvider.initStream
          (([AnthropicProvider.StreamEvent.contentBlockDelta (some "a"),
             AnthropicProvider.StreamEvent.contentBlockDelta (some "b"),
             AnthropicProvider.StreamEvent.contentBlockDelta (some "c")].map
            AnthropicProvider.StreamOp.nextEvent) ++ [.nextDone])).reports =
        ["abc"] ∧
      (∀ cs : List GoogleProvider.Chunk,
        (GoogleProvider.runStream GoogleProvider.initStream
            (cs.map .nextChunk ++ [.nextDone])).reports =
          [cs.foldl
            (fun a c => a ++ GoogleProvider.extractTextFromChunk c) ""]) ∧
      GoogleProvider.extractTextFromChunk .malformed = "" := by
  have ha : ∀ cs : List AnthropicProvider.StreamEvent,
      (AnthropicProvider.runStream AnthropicProvider.initStream
          (cs.map .nextEvent ++ [.nextDone])).reports =
        [cs.foldl
          (fun a ev => a ++ AnthropicProvider.extractTextFromEvent ev) ""] := by
    intro cs
    obtain ⟨hacc, hfired, hreps⟩ :=
      AnthropicProvider.runStream_events cs AnthropicProvider.initStream
    simp only [AnthropicProvider.runStream, List.foldl_append,
      List.foldl_cons, List.foldl_nil] at hacc hfired hreps ⊢
    simp only [AnthropicProvider.streamStep,
      AnthropicProvider.fireCallback_reports]
    rw [hreps, hfired, hacc]
    simp [AnthropicProvider.initStream]
  have hg : ∀ cs : List GoogleProvider.Chunk,
      (GoogleProvider.runStream GoogleProvider.initStream
          (cs.map .nextChunk ++ [.nextDone])).reports =
        [cs.foldl
          (fun a c => a ++ GoogleProvider.extractTextFromChunk c) ""] := by
    intro cs
    obtain ⟨hacc, hfired, hreps⟩ :=
      GoogleProvider.runStream_chunks cs GoogleProvider.initStream
    simp only [GoogleProvider.runStream, List.foldl_append,
      List.foldl_cons, List.foldl_nil] at hacc hfired hreps ⊢
    simp only [GoogleProvider.streamStep,
      GoogleProvider.gfireCallback_reports]
    rw [hreps, hfired, hacc]
    simp [GoogleProvider.initStream]
  exact ⟨ha, rfl, by rw [ha]; rfl, hg, rfl⟩

/-- C8: identifier fallback. For any monitored invocation whose `chatId` and
`email` options are resolver functions that throw on the call's arguments,
when monitoring is active, the control delivery succeeds and the callable
succeeds with `r`, the call still completes with exactly `r`, and the single
reported payload carries the defaults `chatId = "123"` and
`email = "anonymous@olakai.ai"`. -/
theorem C8_identifier_fallback :
    ∀ {α ρ : Type} (env : MonitorEnv α ρ) (options : MonitorOptions α)
      (args : α) (f g : α → Except Thrown String) (e₁ e₂ : Thrown)
      (resp : ControlAPIResponse) (r : ρ),
      options.chatId = .fn f → f args = .error e₁ →
      options.email = .fn g → g args = .error e₂ →
      env.configOk = true → env.controlDelivery = .ok resp →
      env.fn args = .ok r →
      (monitorRun env options args).outcome = .success r ∧
        (monitorRun env options args).dispatched.map
            (fun p => (p.chatId, p.email)) =
          [("123", "anonymous@olakai.ai")] := by
  intro α ρ env options args f g e₁ e₂ resp r hcf hce hef hee hc hd hf
  constructor
  · simp [monitorRun, hc, hd, shouldAllowCall, hf]
  · simp [monitorRun, hc, hd, shouldAllowCall, hf, makeMonitoringCall_eq,
      resolveIdentifiers, hcf, hce, hef, hee]

/-- C8 (witness): the identifier fallback evaluated for concrete throwing
resolvers under a concrete environment. -/
theorem C8_identifier_fallback_witness :
    (monitorRun envOkNat optsThrowingResolvers 0).outcome = .success 1 ∧
      (monitorRun envOkNat optsThrowingResolvers 0).dispatched.map
          (fun p => (p.chatId, p.email)) =
        [("123", "anonymous@olakai.ai")] :=
  C8_identifier_fallback envOkNat optsThrowingResolvers 0
    (fun _ => .error (.err "chatId resolver exploded" none))
    (fun _ => .error (.err "email resolver exploded" none))
    (.err "chatId resolver exploded" none) (.err "email resolver exploded" none)
    { allowed := true
      details := { detectedSensitivity := [], isAllowedPersona := true } }
    1 rfl rfl rfl rfl rfl rfl rfl

/-- C10: because `resolveIdentifiers` falls back on JavaScript *truthiness*
(`options.chatId || "123"`), a static empty-string `chatId`/`email` option is
replaced by the defaults in the reported payload, exactly as an absent option
would be, and the call completes normally. -/
theorem C10_empty_string_identifier_fallback :
    ∀ {α ρ : Type} (env : MonitorEnv α ρ) (options : MonitorOptions α)
      (args : α) (resp : ControlAPIResponse) (r : ρ),
      options.chatId = .str "" → options.email = .str "" →
      env.configOk = true → env.controlDelivery = .ok resp →
      env.fn args = .ok r →
      resolveIdentifiers options args = ("123", "anonymous@olakai.ai") ∧
        (monitorRun env options args).outcome = .success r ∧
        (monitorRun env options args).dispatched.map
            (fun p => (p.chatId, p.email)) =
          [("123", "anonymous@olakai.ai")] := by
  intro α ρ env options args resp r hcs hes hc hd hf
  refine ⟨?_, ?_, ?_⟩
  · simp [resolveIdentifiers, hcs, hes]
  · simp [monitorRun, hc, hd, shouldAllowCall, hf]
  · simp [monitorRun, hc, hd, shouldAllowCall, hf, makeMonitoringCall_eq,
      resolveIdentifiers, hcs, hes]

/-- C10 (witness): the empty-string fallback evaluated at concrete options
whose `chatId` and `email` are `""`. -/
theorem C10_empty_string_identifier_fallback_witness :
    resolveIdentifiers optsEmptyIds 0 = ("123", "anonymous@olakai.ai") ∧
      (monitorRun envOkNat optsEmptyIds 0).outcome = .success 1 ∧
      (monitorRun envOkNat optsEmptyIds 0).dispatched.map
          (fun p => (p.chatId, p.email)) =
        [("123", "anonymous@olakai.ai")] :=
  C10_empty_string_identifier_fallback envOkNat optsEmptyIds 0
    { allowed := true
      details := { detectedSensitivity := [], isAllowedPersona := true } }
    1 rfl rfl rfl rfl rfl

end Olakai
